import Mathlib

/-!
Verification of the eye-tracking Pokemon web controller
(src/eye-tracking-pokemon-webapp.py) against its specification.

The script's logic is embedded shallowly:
* the coordinate-to-direction classifier `get_direction_from_coords`
  is a pure function on integer screen coordinates (the screen
  dimension constants are even, so the Python float centre
  `SCREEN_WIDTH / 2` is the exact integer 960, and integer
  subtraction models the float arithmetic exactly on integer inputs);
* each HTTP handler is a function from the module-global state
  (`current_direction`, `last_eye_update`, `eye_tracking_enabled`,
  whether `pyboy_instance` is set) and a request body to an updated
  state together with the JSON response fields and the list of
  emulator calls it performs;
* the game loop `run_game` is modelled by the list of emulator calls
  one iteration performs, and by an execution with an emulator that
  raises on its n-th call, reflecting the `try/except/finally`
  structure of the Python code.

Request-body fields that the Python code only compares against a
fixed set of string constants (`action`, `direction`, `button`) are
modelled by inductive types with one constructor per recognised
constant plus `unrecognized` (any other JSON value) and `missing`
(the key is absent, `dict.get` returns `None`); the code treats all
values outside the recognised set identically, so this quotient is
exact.
-/

namespace PokemonEyes

/-- Direction values the classifier and the handlers store in
`current_direction` (the Python code uses the strings `"up"`,
`"down"`, `"left"`, `"right"`; `None` is modelled by `Option`). -/
inductive Direction
  | up
  | down
  | left
  | right
deriving DecidableEq, Repr

/-- Configuration constant `SCREEN_WIDTH = 1920` from the script. -/
def SCREEN_WIDTH : Int := 1920

/-- Configuration constant `SCREEN_HEIGHT = 1080` from the script. -/
def SCREEN_HEIGHT : Int := 1080

/-- Configuration constant `DEAD_ZONE = 100` from the script. -/
def DEAD_ZONE : Int := 100

/-- Centre x coordinate: `center_x = SCREEN_WIDTH / 2` (exact: 960). -/
def center_x : Int := SCREEN_WIDTH / 2

/-- Centre y coordinate: `center_y = SCREEN_HEIGHT / 2` (exact: 540). -/
def center_y : Int := SCREEN_HEIGHT / 2

/-- Embedding of `get_direction_from_coords(x, y)` (lines 27-44):
dead-zone check with strict `<`, then `abs(dx) > abs(dy)` picks the
horizontal axis (`"right" if dx > 0 else "left"`), otherwise the
vertical axis (`"down" if dy > 0 else "up"`). -/
def get_direction_from_coords (x y : Int) : Option Direction :=
  if |x - center_x| < DEAD_ZONE ∧ |y - center_y| < DEAD_ZONE then
    none
  else
    if |x - center_x| > |y - center_y| then
      if 0 < x - center_x then some Direction.right else some Direction.left
    else
      if 0 < y - center_y then some Direction.down else some Direction.up

/-- Emulator input codes from `pyboy.utils.WindowEvent` that the
script sends through `send_input`. -/
inductive WindowEvent
  | press_arrow_up
  | press_arrow_down
  | press_arrow_left
  | press_arrow_right
  | release_arrow_up
  | release_arrow_down
  | release_arrow_left
  | release_arrow_right
  | press_button_a
  | press_button_b
  | press_button_start
  | press_button_select
  | release_button_a
  | release_button_b
  | release_button_start
  | release_button_select
deriving DecidableEq, Repr

/-- Calls the script makes on the `pyboy_instance` collaborator. -/
inductive EmuEvent
  | sendInput (e : WindowEvent)
  | tick
  | stop
deriving DecidableEq, Repr

/-- Press event for a direction, following the first `if/elif` chain
of the game loop (lines 64-71). -/
def directionPressEvent : Direction → WindowEvent
  | Direction.up => WindowEvent.press_arrow_up
  | Direction.down => WindowEvent.press_arrow_down
  | Direction.left => WindowEvent.press_arrow_left
  | Direction.right => WindowEvent.press_arrow_right

/-- Release event for a direction, following the second `if/elif`
chain of the game loop (lines 77-84). -/
def directionReleaseEvent : Direction → WindowEvent
  | Direction.up => WindowEvent.release_arrow_up
  | Direction.down => WindowEvent.release_arrow_down
  | Direction.left => WindowEvent.release_arrow_left
  | Direction.right => WindowEvent.release_arrow_right

/-- Emulator calls made by one iteration of the `while True` loop in
`run_game` (lines 61-90): when `eye_tracking_enabled and
current_direction` is truthy, a press, a tick, and the matching
release; then, unconditionally, the `pyboy_instance.tick()` of line
87. (The `time.sleep` makes no emulator call.) -/
def loopIterationEvents (enabled : Bool) (dir : Option Direction) : List EmuEvent :=
  (if enabled then
    match dir with
    | some d =>
        [EmuEvent.sendInput (directionPressEvent d), EmuEvent.tick,
          EmuEvent.sendInput (directionReleaseEvent d)]
    | none => []
  else []) ++ [EmuEvent.tick]

/-- Module-global mutable state read and written by the HTTP
handlers: `current_direction`, `last_eye_update` (a clock reading,
`0` meaning never set, as the Python code tests its truthiness), and
`eye_tracking_enabled`; `pyboyRunning` models `pyboy_instance is not
None`. -/
structure ServerState where
  currentDirection : Option Direction
  lastEyeUpdate : Int
  eyeTrackingEnabled : Bool
  pyboyRunning : Bool
deriving DecidableEq, Repr

/-- Initial values of the globals (lines 14-18). -/
def initState : ServerState :=
  { currentDirection := none
    lastEyeUpdate := 0
    eyeTrackingEnabled := false
    pyboyRunning := false }

/-- JSON body of a POST /eye_data request: each coordinate is either
present (a number) or absent, in which case `data.get('x', 0)`
substitutes 0. -/
structure EyeDataBody where
  x : Option Int
  y : Option Int
deriving DecidableEq, Repr

/-- Outcome of the /eye_data handler: the updated globals and the
fields of the JSON response (`status`, `direction`, `x`, `y`). -/
structure EyeDataResult where
  state : ServerState
  ok : Bool
  direction : Option Direction
  x : Int
  y : Int
deriving DecidableEq, Repr

/-- Embedding of `receive_eye_data` (lines 103-125): read `x` and `y`
with default 0, classify, and only when the new direction differs
from `current_direction` store it and stamp `last_eye_update` with
the current clock reading `t`; respond with success, the (possibly
updated) current direction, and the coordinates used. -/
def receive_eye_data (s : ServerState) (body : EyeDataBody) (t : Int) :
    EyeDataResult :=
  let x := body.x.getD 0
  let y := body.y.getD 0
  let nd := get_direction_from_coords x y
  let s' :=
    if nd ≠ s.currentDirection then
      { s with currentDirection := nd, lastEyeUpdate := t }
    else s
  { state := s', ok := true, direction := s'.currentDirection, x := x, y := y }

/-- Value of the `action` field of a /control body: the code compares
it against the constants `press`, `release`, `button`; every other
JSON value, and an absent key, behaves identically (all comparisons
fail), so they are collapsed into `unrecognized` and `missing`. -/
inductive ActionVal
  | press
  | release
  | button
  | unrecognized
  | missing
deriving DecidableEq, Repr

/-- Value of the `direction` field of a /control body, compared by the
code against the list `['up', 'down', 'left', 'right']`. -/
inductive DirectionVal
  | up
  | down
  | left
  | right
  | unrecognized
  | missing
deriving DecidableEq, Repr

/-- Membership test `direction in ['up', 'down', 'left', 'right']`
(line 141), returning the direction stored into `current_direction`
when it passes. -/
def DirectionVal.toDirection : DirectionVal → Option Direction
  | DirectionVal.up => some Direction.up
  | DirectionVal.down => some Direction.down
  | DirectionVal.left => some Direction.left
  | DirectionVal.right => some Direction.right
  | DirectionVal.unrecognized => none
  | DirectionVal.missing => none

/-- Value of the `button` field of a /control body, compared by the
code against `a`, `b`, `start`, `select`. -/
inductive ButtonVal
  | a
  | b
  | start
  | select
  | unrecognized
  | missing
deriving DecidableEq, Repr

/-- JSON body of a POST /control request. -/
structure ControlBody where
  action : ActionVal
  direction : DirectionVal
  button : ButtonVal
deriving DecidableEq, Repr

/-- Outcome of the /control handler: updated globals, response status,
and the emulator calls performed. -/
structure ControlResult where
  state : ServerState
  ok : Bool
  events : List EmuEvent
deriving DecidableEq, Repr

/-- Embedding of `control` (lines 130-167): `press` with a recognised
direction overwrites `current_direction`; `release` clears it;
`button` sends a press-tick-release triple for a recognised button
only when `pyboy_instance` is set; every other case falls through;
the response is `{status: success}` on every path. No branch touches
`last_eye_update`. -/
def control (s : ServerState) (body : ControlBody) : ControlResult :=
  match body.action with
  | ActionVal.press =>
      match body.direction.toDirection with
      | some d =>
          { state := { s with currentDirection := some d }, ok := true, events := [] }
      | none => { state := s, ok := true, events := [] }
  | ActionVal.release =>
      { state := { s with currentDirection := none }, ok := true, events := [] }
  | ActionVal.button =>
      if s.pyboyRunning then
        match body.button with
        | ButtonVal.a =>
            { state := s, ok := true,
              events := [EmuEvent.sendInput WindowEvent.press_button_a, EmuEvent.tick,
                EmuEvent.sendInput WindowEvent.release_button_a] }
        | ButtonVal.b =>
            { state := s, ok := true,
              events := [EmuEvent.sendInput WindowEvent.press_button_b, EmuEvent.tick,
                EmuEvent.sendInput WindowEvent.release_button_b] }
        | ButtonVal.start =>
            { state := s, ok := true,
              events := [EmuEvent.sendInput WindowEvent.press_button_start, EmuEvent.tick,
                EmuEvent.sendInput WindowEvent.release_button_start] }
        | ButtonVal.select =>
            { state := s, ok := true,
              events := [EmuEvent.sendInput WindowEvent.press_button_select, EmuEvent.tick,
                EmuEvent.sendInput WindowEvent.release_button_select] }
        | ButtonVal.unrecognized => { state := s, ok := true, events := [] }
        | ButtonVal.missing => { state := s, ok := true, events := [] }
      else { state := s, ok := true, events := [] }
  | ActionVal.unrecognized => { state := s, ok := true, events := [] }
  | ActionVal.missing => { state := s, ok := true, events := [] }

/-- Outcome of the /toggle_eye_tracking handler. -/
structure ToggleResult where
  state : ServerState
  ok : Bool
  eye_tracking_enabled : Bool
deriving DecidableEq, Repr

/-- Embedding of `toggle_eye_tracking` (lines 172-181): negate the
flag and report its new value. -/
def toggle_eye_tracking (s : ServerState) : ToggleResult :=
  let s' := { s with eyeTrackingEnabled := !s.eyeTrackingEnabled }
  { state := s', ok := true, eye_tracking_enabled := s'.eyeTrackingEnabled }

/-- Fields of the GET /status JSON response. -/
structure StatusResult where
  game_running : Bool
  eye_tracking_enabled : Bool
  current_direction : Option Direction
  last_update : Option Int
deriving DecidableEq, Repr

/-- Embedding of `status` (lines 183-191): `game_running` is
`pyboy_instance is not None`; `last_update` is `time.time() -
last_eye_update` when `last_eye_update` is truthy (nonzero), else
`None`; `now` is the clock reading `time.time()` at the request. -/
def status (s : ServerState) (now : Int) : StatusResult :=
  { game_running := s.pyboyRunning
    eye_tracking_enabled := s.eyeTrackingEnabled
    current_direction := s.currentDirection
    last_update :=
      if s.lastEyeUpdate ≠ 0 then some (now - s.lastEyeUpdate) else none }

/-- One state-mutating HTTP request, with the clock reading at which
an /eye_data request is handled. -/
inductive Request
  | eye_data (body : EyeDataBody) (t : Int)
  | control_req (body : ControlBody)
  | toggle_req
deriving DecidableEq, Repr

/-- Effect of one request on the shared globals. -/
def applyOp (s : ServerState) : Request → ServerState
  | Request.eye_data body t => (receive_eye_data s body t).state
  | Request.control_req body => (control s body).state
  | Request.toggle_req => (toggle_eye_tracking s).state

/-- Effect of a sequence of requests, applied left to right. -/
def applyOps (s : ServerState) : List Request → ServerState
  | [] => s
  | op :: rest => applyOps (applyOp s op) rest

/-- The most recent gaze point received in a request sequence, with
the coordinate defaults the handler applies. -/
def lastGazePoint : List Request → Option (Int × Int)
  | [] => none
  | op :: rest =>
      match lastGazePoint rest with
      | some p => some p
      | none =>
          match op with
          | Request.eye_data body _ => some (body.x.getD 0, body.y.getD 0)
          | _ => none

/-- Whether a request can write `current_direction` through the manual
override path of /control (a `press` with a recognised direction, or
a `release`) rather than through the classifier. -/
def manualDirectionOp : Request → Bool
  | Request.control_req body =>
      decide ((body.action = ActionVal.press ∧ body.direction.toDirection ≠ none) ∨
        body.action = ActionVal.release)
  | _ => false

/-- State of an emulator collaborator that raises an exception on its
`failAt`-th call (0-indexed): calls made so far and the trace of
successful calls. -/
structure EmuCtx where
  failAt : Nat
  calls : Nat
  trace : List EmuEvent
deriving DecidableEq, Repr

/-- Result of running a piece of code against the faulty emulator:
either an exception escaped, or it finished normally. -/
inductive EmuOutcome
  | raised (c : EmuCtx)
  | normal (c : EmuCtx)
deriving DecidableEq, Repr

/-- Perform a list of emulator calls in order: each call raises when
the call counter reaches `failAt` (the exception propagates,
abandoning the rest), otherwise it is recorded and the counter
advances. -/
def runCalls : List EmuEvent → EmuCtx → EmuOutcome
  | [], c => EmuOutcome.normal c
  | e :: es, c =>
      if c.calls = c.failAt then EmuOutcome.raised c
      else runCalls es { c with calls := c.calls + 1, trace := c.trace ++ [e] }

/-- The `while True` loop of `run_game`, run for at most `fuel`
iterations (the real loop has no normal exit; `fuel` only bounds the
simulation, and an exception within the bound ends it early). The
shared state snapshot `(enabled, dir)` is held fixed across
iterations. -/
def gameLoop (enabled : Bool) (dir : Option Direction) :
    Nat → EmuCtx → EmuOutcome
  | 0, c => EmuOutcome.normal c
  | fuel + 1, c =>
      match runCalls (loopIterationEvents enabled dir) c with
      | EmuOutcome.raised c' => EmuOutcome.raised c'
      | EmuOutcome.normal c' => gameLoop enabled dir fuel c'

/-- What `run_game` leaves behind: whether the `pyboy_instance`
global is still set after the function returns, the emulator calls
made (including the terminal `stop`), and whether an exception was
caught by the `except` clause. -/
structure RunGameResult where
  pyboyInstanceSet : Bool
  events : List EmuEvent
  raisedAndCaught : Bool
deriving DecidableEq, Repr

/-- Embedding of `run_game` (lines 46-96) from the point where
construction of the PyBoy instance has succeeded (so the
`pyboy_instance` global is set): the loop runs until the emulator
raises; the `except` clause logs and swallows the exception; the
`finally` clause calls `pyboy_instance.stop()` because the instance
is truthy, and no statement ever resets `pyboy_instance` to `None`. -/
def run_game (enabled : Bool) (dir : Option Direction) (failAt fuel : Nat) :
    RunGameResult :=
  match gameLoop enabled dir fuel { failAt := failAt, calls := 0, trace := [] } with
  | EmuOutcome.raised c =>
      { pyboyInstanceSet := true
        events := c.trace ++ [EmuEvent.stop]
        raisedAndCaught := true }
  | EmuOutcome.normal c =>
      { pyboyInstanceSet := true
        events := c.trace ++ [EmuEvent.stop]
        raisedAndCaught := false }

end PokemonEyes

namespace PokemonEyes

/-- C1: outside the dead zone the classifier is decided by the
`abs(dx) > abs(dy)` comparison: strictly horizontal-dominant points
map to Right/Left by the sign of dx, all others (including exact
diagonals) map to Down/Up by the sign of dy; hence a diagonal point
with `|dx| = |dy|`, both nonzero, yields Up or Down, never
Left/Right. -/
theorem c1_tiebreak (x y : Int)
    (hout : ¬ (|x - center_x| < DEAD_ZONE ∧ |y - center_y| < DEAD_ZONE)) :
    (|x - center_x| > |y - center_y| →
      get_direction_from_coords x y =
        some (if 0 < x - center_x then Direction.right else Direction.left))
    ∧ (|x - center_x| ≤ |y - center_y| →
      get_direction_from_coords x y =
        some (if 0 < y - center_y then Direction.down else Direction.up))
    ∧ (|x - center_x| = |y - center_y| → x - center_x ≠ 0 → y - center_y ≠ 0 →
      get_direction_from_coords x y = some Direction.up ∨
        get_direction_from_coords x y = some Direction.down) := by
  unfold get_direction_from_coords
  rw [if_neg hout]
  refine ⟨?_, ?_, ?_⟩
  · intro hgt
    rw [if_pos hgt]
    by_cases hdx : 0 < x - center_x <;> simp [hdx]
  · intro hle
    rw [if_neg (not_lt.mpr hle)]
    by_cases hdy : 0 < y - center_y <;> simp [hdy]
  · intro heq _ _
    rw [if_neg (by rw [heq]; exact lt_irrefl _)]
    by_cases hdy : 0 < y - center_y <;> simp [hdy]

/-- Witness for `c1_tiebreak` at the diagonal point (1100, 680):
dx = 140 = dy, outside the dead zone, and the classifier answers
Down (vertical), never Left/Right. -/
theorem c1_tiebreak_witness :
    get_direction_from_coords 1100 680 = some Direction.up ∨
      get_direction_from_coords 1100 680 = some Direction.down :=
  (c1_tiebreak 1100 680 (by decide)).2.2 (by decide) (by decide) (by decide)

/-- C2: every point with both coordinate offsets strictly inside the
dead-zone radius classifies to None, and on the 1920x1080 screen with
dead zone 100: (960,540) and (960,541) give None, (1200,540) gives
Right, (960,300) gives Up. -/
theorem c2_dead_zone :
    (∀ x y : Int, |x - center_x| < DEAD_ZONE → |y - center_y| < DEAD_ZONE →
      get_direction_from_coords x y = none)
    ∧ get_direction_from_coords 960 540 = none
    ∧ get_direction_from_coords 960 541 = none
    ∧ get_direction_from_coords 1200 540 = some Direction.right
    ∧ get_direction_from_coords 960 300 = some Direction.up := by
  refine ⟨?_, by decide, by decide, by decide, by decide⟩
  intro x y hx hy
  unfold get_direction_from_coords
  rw [if_pos ⟨hx, hy⟩]

/-- Witness for `c2_dead_zone`: the universally quantified dead-zone
conjunct applied at the concrete point (960, 541). -/
theorem c2_dead_zone_witness : get_direction_from_coords 960 541 = none :=
  c2_dead_zone.1 960 541 (by decide) (by decide)

/-- Helper: a /control request that is not a manual direction write (a
recognised `press` or a `release`) leaves the shared state entirely
unchanged. -/
theorem control_state_eq_of_not_manual (s : ServerState) (body : ControlBody)
    (h : ¬ ((body.action = ActionVal.press ∧ body.direction.toDirection ≠ none) ∨
      body.action = ActionVal.release)) :
    (control s body).state = s := by
  push_neg at h
  obtain ⟨h1, h2⟩ := h
  cases ha : body.action with
  | press =>
      have htd : body.direction.toDirection = none := h1 ha
      simp [control, ha, htd]
  | release => exact absurd ha h2
  | button =>
      cases hb : s.pyboyRunning <;> cases hbtn : body.button <;>
        simp [control, ha, hb, hbtn]
  | unrecognized => simp [control, ha]
  | missing => simp [control, ha]

/-- Helper: the direction stored after one request that is not a
manual override: an /eye_data request leaves the classifier's value
for its (defaulted) coordinates, everything else leaves the previous
direction. -/
theorem applyOp_currentDirection (s : ServerState) (op : Request)
    (h : manualDirectionOp op = false) :
    (applyOp s op).currentDirection =
      match op with
      | Request.eye_data body _ =>
          get_direction_from_coords (body.x.getD 0) (body.y.getD 0)
      | _ => s.currentDirection := by
  cases op with
  | eye_data body t =>
      simp only [applyOp, receive_eye_data]
      split
      · rfl
      · next hne =>
          push_neg at hne
          exact hne.symm
  | control_req body =>
      simp only [manualDirectionOp, decide_eq_false_iff_not] at h
      rw [applyOp, control_state_eq_of_not_manual s body h]
  | toggle_req => rfl

/-- Helper: over any request sequence free of manual direction
writes, the stored direction is the classifier's output on the most
recent gaze point, or the starting direction when no gaze point
occurs. -/
theorem applyOps_currentDirection (ops : List Request)
    (h : ∀ op ∈ ops, manualDirectionOp op = false) (s : ServerState) :
    (applyOps s ops).currentDirection =
      match lastGazePoint ops with
      | some p => get_direction_from_coords p.1 p.2
      | none => s.currentDirection := by
  induction ops generalizing s with
  | nil => rfl
  | cons op rest ih =>
      have hop : manualDirectionOp op = false := h op (List.mem_cons_self op rest)
      have hrest : ∀ o ∈ rest, manualDirectionOp o = false :=
        fun o ho => h o (List.mem_cons_of_mem op ho)
      rw [applyOps, ih hrest (applyOp s op)]
      cases hlg : lastGazePoint rest with
      | some p => simp [lastGazePoint, hlg]
      | none =>
          simp only [lastGazePoint, hlg]
          rw [applyOp_currentDirection s op hop]
          cases op <;> rfl

/-- C3 counterexample: the claim quantifies over every sequence of
operations, but a manual /control press bypasses the classifier:
after /eye_data (1200, 540) followed by /control press `up`, the
stored direction is Up while the classifier's output for the most
recent gaze point (1200, 540) is Right. -/
theorem c3_counterexample :
    (applyOps initState
        [Request.eye_data { x := some 1200, y := some 540 } 5,
          Request.control_req
            { action := ActionVal.press, direction := DirectionVal.up,
              button := ButtonVal.missing }]).currentDirection = some Direction.up
    ∧ lastGazePoint
        [Request.eye_data { x := some 1200, y := some 540 } 5,
          Request.control_req
            { action := ActionVal.press, direction := DirectionVal.up,
              button := ButtonVal.missing }] = some (1200, 540)
    ∧ get_direction_from_coords 1200 540 = some Direction.right
    ∧ (some Direction.up : Option Direction) ≠ some Direction.right := by
  decide

/-- C3 amended: after every sequence of operations containing no
manual /control direction write (no recognised `press` and no
`release`), `currentDirection` equals the classifier's output for the
most recently received GazePoint, or None if no GazePoint was ever
received (the dead-zone case is the classifier returning None); and
after POST /eye_data {x: 1200, y: 540}, GET /status reports
current_direction Right. -/
theorem c3_direction_invariant (ops : List Request)
    (h : ∀ op ∈ ops, manualDirectionOp op = false) :
    ((applyOps initState ops).currentDirection =
      match lastGazePoint ops with
      | some p => get_direction_from_coords p.1 p.2
      | none => none)
    ∧ (status (receive_eye_data initState { x := some 1200, y := some 540 } 5).state
        7).current_direction = some Direction.right := by
  refine ⟨?_, by decide⟩
  rw [applyOps_currentDirection ops h initState]
  cases lastGazePoint ops <;> rfl

/-- Witness for `c3_direction_invariant`: the sequence holding the
single request /eye_data (1200, 540) ends with direction Right. -/
theorem c3_direction_invariant_witness :
    (applyOps initState [Request.eye_data { x := some 1200, y := some 540 } 5]).currentDirection
      = some Direction.right := by
  have h :=
    (c3_direction_invariant [Request.eye_data { x := some 1200, y := some 540 } 5]
      (by decide)).1
  simpa using h

/-- C4: in one iteration of the game loop, when tracking is enabled
and a direction is present the emulator receives press, tick,
matching release, then the unconditional tick; otherwise only the
unconditional tick; in every case the final emulator call of the
iteration is a tick. -/
theorem c4_loop_iteration (enabled : Bool) (dir : Option Direction) :
    (∀ d, enabled = true → dir = some d →
      loopIterationEvents enabled dir =
        [EmuEvent.sendInput (directionPressEvent d), EmuEvent.tick,
          EmuEvent.sendInput (directionReleaseEvent d), EmuEvent.tick])
    ∧ (enabled = false ∨ dir = none → loopIterationEvents enabled dir = [EmuEvent.tick])
    ∧ (loopIterationEvents enabled dir).getLast? = some EmuEvent.tick := by
  refine ⟨?_, ?_, ?_⟩
  · intro d he hd
    subst he hd
    rfl
  · intro h
    rcases h with h | h
    · subst h
      cases dir <;> rfl
    · subst h
      cases enabled <;> rfl
  · cases enabled <;> cases dir <;> rfl

/-- Witness for `c4_loop_iteration`: with tracking enabled and
direction Up the iteration is press-up, tick, release-up, tick, and
with tracking disabled it is a single tick. -/
theorem c4_loop_iteration_witness :
    loopIterationEvents true (some Direction.up) =
      [EmuEvent.sendInput WindowEvent.press_arrow_up, EmuEvent.tick,
        EmuEvent.sendInput WindowEvent.release_arrow_up, EmuEvent.tick]
    ∧ loopIterationEvents false (some Direction.up) = [EmuEvent.tick] :=
  ⟨(c4_loop_iteration true (some Direction.up)).1 Direction.up rfl rfl,
    (c4_loop_iteration false (some Direction.up)).2.1 (Or.inl rfl)⟩

/-- Helper: a loop iteration always makes at least one emulator call
(the unconditional tick). -/
theorem loopIterationEvents_length_pos (enabled : Bool) (dir : Option Direction) :
    0 < (loopIterationEvents enabled dir).length := by
  cases enabled <;> cases dir <;> simp [loopIterationEvents]

/-- Helper: when a call list completes without an exception, the fail
index is unchanged, the counter advances by the list length, and a
counter that started at or below the fail index stays at or below
it (a successful call never crosses it). -/
theorem runCalls_normal_spec (es : List EmuEvent) (c c' : EmuCtx)
    (h : runCalls es c = EmuOutcome.normal c') :
    c'.failAt = c.failAt ∧ c'.calls = c.calls + es.length ∧
      (c.calls ≤ c.failAt → c'.calls ≤ c.failAt) := by
  induction es generalizing c with
  | nil =>
      rw [runCalls] at h
      injection h with h
      subst h
      exact ⟨rfl, by simp, fun hh => hh⟩
  | cons e es ih =>
      rw [runCalls] at h
      split_ifs at h with hcc
      obtain ⟨h1, h2, h3⟩ := ih _ h
      refine ⟨h1, ?_, ?_⟩
      · simp only [List.length_cons]
        have h2' : c'.calls = c.calls + 1 + es.length := h2
        omega
      · intro hle
        have hstep : c.calls + 1 ≤ c.failAt := by omega
        exact h3 hstep

/-- Helper: when the loop completes `fuel` iterations without an
exception, the call counter has advanced by at least `fuel` and, if
it started at or below the fail index, is still at or below it. -/
theorem gameLoop_normal_spec (enabled : Bool) (dir : Option Direction)
    (fuel : Nat) (c c' : EmuCtx)
    (h : gameLoop enabled dir fuel c = EmuOutcome.normal c')
    (hle : c.calls ≤ c.failAt) :
    c.calls + fuel ≤ c'.calls ∧ c'.calls ≤ c.failAt := by
  induction fuel generalizing c with
  | zero =>
      rw [gameLoop] at h
      injection h with h
      subst h
      exact ⟨by omega, hle⟩
  | succ fuel ih =>
      rw [gameLoop] at h
      cases hrc : runCalls (loopIterationEvents enabled dir) c with
      | raised c1 =>
          rw [hrc] at h
          exact absurd h (by simp)
      | normal c1 =>
          rw [hrc] at h
          change gameLoop enabled dir fuel c1 = EmuOutcome.normal c' at h
          obtain ⟨hf1, hf2, hf3⟩ := runCalls_normal_spec _ _ _ hrc
          have hle1 : c1.calls ≤ c1.failAt := by
            rw [hf1]
            exact hf3 hle
          obtain ⟨g1, g2⟩ := ih c1 h hle1
          have hlen := loopIterationEvents_length_pos enabled dir
          refine ⟨by omega, ?_⟩
          rw [hf1] at g2
          exact g2

/-- Helper: with the fail index strictly below the iteration bound,
the loop cannot complete normally, so the emulator exception escapes
it. -/
theorem gameLoop_raised_of_lt (enabled : Bool) (dir : Option Direction)
    (failAt fuel : Nat) (h : failAt < fuel) :
    ∃ c', gameLoop enabled dir fuel { failAt := failAt, calls := 0, trace := [] }
      = EmuOutcome.raised c' := by
  cases hout : gameLoop enabled dir fuel { failAt := failAt, calls := 0, trace := [] } with
  | raised c' => exact ⟨c', rfl⟩
  | normal c' =>
      obtain ⟨g1, g2⟩ := gameLoop_normal_spec enabled dir fuel _ c' hout (by simp)
      have g1' : 0 + fuel ≤ c'.calls := g1
      have g2' : c'.calls ≤ failAt := g2
      omega

/-- C5 counterexample: with the emulator raising on its very first
call, the exception is caught, the `finally` clause stops the
emulator, but a subsequent GET /status reports game_running = true,
not false as the claim states, because `pyboy_instance` is never
reset to `None`. -/
theorem c5_counterexample :
    (run_game false none 0 1).raisedAndCaught = true
    ∧ (run_game false none 0 1).events = [EmuEvent.stop]
    ∧ (status { initState with
          pyboyRunning := (run_game false none 0 1).pyboyInstanceSet } 7).game_running
        ≠ false := by
  decide

/-- C5 amended: whenever the emulator raises within the simulated
iteration bound, the exception escapes the loop (terminating it) and
is caught, the terminal emulator call is the `stop` of the `finally`
clause regardless of how the body exited, the process keeps serving
requests, and a subsequent GET /status reports game_running = true
(the instance reference is retained, not cleared). -/
theorem c5_crash_cleanup (enabled : Bool) (dir : Option Direction)
    (failAt fuel : Nat) (h : failAt < fuel) :
    (run_game enabled dir failAt fuel).raisedAndCaught = true
    ∧ (∃ tr, (run_game enabled dir failAt fuel).events = tr ++ [EmuEvent.stop])
    ∧ (run_game enabled dir failAt fuel).pyboyInstanceSet = true
    ∧ ∀ (s : ServerState) (now : Int),
        (status { s with
          pyboyRunning := (run_game enabled dir failAt fuel).pyboyInstanceSet }
          now).game_running = true := by
  obtain ⟨c', hc⟩ := gameLoop_raised_of_lt enabled dir failAt fuel h
  have hrun : run_game enabled dir failAt fuel =
      { pyboyInstanceSet := true
        events := c'.trace ++ [EmuEvent.stop]
        raisedAndCaught := true } := by
    unfold run_game
    rw [hc]
  rw [hrun]
  exact ⟨rfl, ⟨c'.trace, rfl⟩, rfl, fun s now => rfl⟩

/-- Witness for `c5_crash_cleanup`: the emulator raising on its first
call with an iteration bound of one. -/
theorem c5_crash_cleanup_witness :
    (run_game true (some Direction.left) 0 1).raisedAndCaught = true
    ∧ (run_game true (some Direction.left) 0 1).pyboyInstanceSet = true :=
  ⟨(c5_crash_cleanup true (some Direction.left) 0 1 (by decide)).1,
    (c5_crash_cleanup true (some Direction.left) 0 1 (by decide)).2.2.1⟩

/-- C6: toggling twice restores the tracking flag for every starting
state; from the initial state one toggle reports
eye_tracking_enabled = true in its response and in every subsequent
GET /status. -/
theorem c6_toggle_idempotent (s : ServerState) :
    (toggle_eye_tracking (toggle_eye_tracking s).state).state.eyeTrackingEnabled
      = s.eyeTrackingEnabled
    ∧ (toggle_eye_tracking initState).eye_tracking_enabled = true
    ∧ ∀ now : Int,
        (status (toggle_eye_tracking initState).state now).eye_tracking_enabled = true := by
  refine ⟨?_, by decide, fun now => rfl⟩
  simp [toggle_eye_tracking]

/-- Witness for `c6_toggle_idempotent` at the initial state. -/
theorem c6_toggle_idempotent_witness :
    (toggle_eye_tracking (toggle_eye_tracking initState).state).state.eyeTrackingEnabled
      = initState.eyeTrackingEnabled :=
  (c6_toggle_idempotent initState).1

/-- C7: a /control request whose consulted field is not a recognised
enum member (unknown or missing action; `press` with an unrecognised
or missing direction; `button` with an unrecognised or missing
button) leaves the state unchanged, performs no emulator call, and
still answers success; and the scenario `action = button, button = a`
with no running emulator is a graceful no-op answering success. -/
theorem c7_invalid_enum_ignored (s : ServerState) (body : ControlBody)
    (h : body.action = ActionVal.unrecognized ∨ body.action = ActionVal.missing
      ∨ (body.action = ActionVal.press ∧ body.direction.toDirection = none)
      ∨ (body.action = ActionVal.button ∧
          (body.button = ButtonVal.unrecognized ∨ body.button = ButtonVal.missing))) :
    ((control s body).state = s ∧ (control s body).events = []
      ∧ (control s body).ok = true)
    ∧ ((control initState
        { action := ActionVal.button, direction := DirectionVal.missing,
          button := ButtonVal.a }).state = initState
      ∧ (control initState
        { action := ActionVal.button, direction := DirectionVal.missing,
          button := ButtonVal.a }).events = []
      ∧ (control initState
        { action := ActionVal.button, direction := DirectionVal.missing,
          button := ButtonVal.a }).ok = true) := by
  refine ⟨?_, by decide, by decide, by decide⟩
  rcases h with h | h | ⟨h, hd⟩ | ⟨h, hb⟩
  · simp [control, h]
  · simp [control, h]
  · simp [control, h, hd]
  · rcases hb with hb | hb <;> cases hpr : s.pyboyRunning <;> simp [control, h, hb, hpr]

/-- Witness for `c7_invalid_enum_ignored`: an unrecognised action on
the initial state. -/
theorem c7_invalid_enum_ignored_witness :
    (control initState
      { action := ActionVal.unrecognized, direction := DirectionVal.missing,
        button := ButtonVal.missing }).state = initState :=
  ((c7_invalid_enum_ignored initState
    { action := ActionVal.unrecognized, direction := DirectionVal.missing,
      button := ButtonVal.missing } (Or.inl rfl)).1).1

/-- C8 counterexample: a manual /control press changes the current
direction, yet a later GET /status still reports last_update = null,
because `control` never writes `last_eye_update`; the claim's
"by any operation that changes it" fails. -/
theorem c8_counterexample :
    (applyOps initState
        [Request.control_req
          { action := ActionVal.press, direction := DirectionVal.up,
            button := ButtonVal.missing }]).currentDirection
      ≠ initState.currentDirection
    ∧ (status (applyOps initState
        [Request.control_req
          { action := ActionVal.press, direction := DirectionVal.up,
            button := ButtonVal.missing }]) 7).last_update = none := by
  decide

/-- C8 amended: `last_eye_update` is written exactly by the /eye_data
requests that change the direction (stamped with their clock
reading), is untouched by every /control and toggle request, and GET
/status reports now minus that stamp when it is nonzero and null when
it is zero (its initial value). -/
theorem c8_last_update (s : ServerState) :
    (∀ (body : EyeDataBody) (t : Int),
      get_direction_from_coords (body.x.getD 0) (body.y.getD 0) ≠ s.currentDirection →
      (receive_eye_data s body t).state.lastEyeUpdate = t)
    ∧ (∀ (body : EyeDataBody) (t : Int),
      get_direction_from_coords (body.x.getD 0) (body.y.getD 0) = s.currentDirection →
      (receive_eye_data s body t).state.lastEyeUpdate = s.lastEyeUpdate)
    ∧ (∀ body : ControlBody, (control s body).state.lastEyeUpdate = s.lastEyeUpdate)
    ∧ (toggle_eye_tracking s).state.lastEyeUpdate = s.lastEyeUpdate
    ∧ (∀ now : Int, s.lastEyeUpdate ≠ 0 →
      (status s now).last_update = some (now - s.lastEyeUpdate))
    ∧ (∀ now : Int, s.lastEyeUpdate = 0 → (status s now).last_update = none) := by
  refine ⟨?_, ?_, ?_, rfl, ?_, ?_⟩
  · intro body t hne
    simp only [receive_eye_data]
    rw [if_pos hne]
  · intro body t heq
    simp only [receive_eye_data]
    rw [if_neg (by simp [heq])]
  · intro body
    cases ha : body.action with
    | press => cases htd : body.direction.toDirection <;> simp [control, ha, htd]
    | release => simp [control, ha]
    | button =>
        cases hpr : s.pyboyRunning <;> cases hb : body.button <;>
          simp [control, ha, hpr, hb]
    | unrecognized => simp [control, ha]
    | missing => simp [control, ha]
  · intro now h
    simp [status, h]
  · intro now h
    simp [status, h]

/-- Witness for `c8_last_update`: from the initial state, /eye_data
(1200, 540) at clock 5 changes the direction and stamps 5. -/
theorem c8_last_update_witness :
    (receive_eye_data initState { x := some 1200, y := some 540 } 5).state.lastEyeUpdate = 5 :=
  (c8_last_update initState).1 { x := some 1200, y := some 540 } 5 (by decide)

/-- C9: a missing coordinate in a /eye_data body defaults to 0 (no
error: the response echoes 0 and reports success), and an empty body
is classified as the point (0, 0), which is Left of centre on the
1920x1080 screen, so the stored direction becomes Left. -/
theorem c9_missing_coordinate_defaults (s : ServerState) (body : EyeDataBody) (t : Int) :
    (body.x = none → (receive_eye_data s body t).x = 0)
    ∧ (body.y = none → (receive_eye_data s body t).y = 0)
    ∧ (receive_eye_data s body t).ok = true
    ∧ get_direction_from_coords 0 0 = some Direction.left
    ∧ (receive_eye_data s { x := none, y := none } t).state.currentDirection
        = some Direction.left := by
  have hgd : get_direction_from_coords 0 0 = some Direction.left := by decide
  refine ⟨?_, ?_, rfl, hgd, ?_⟩
  · intro hx
    simp [receive_eye_data, hx]
  · intro hy
    simp [receive_eye_data, hy]
  · exact (applyOp_currentDirection s
      (Request.eye_data { x := none, y := none } t) rfl).trans hgd

/-- Witness for `c9_missing_coordinate_defaults`: a body lacking `x`
answers with x = 0. -/
theorem c9_missing_coordinate_defaults_witness :
    (receive_eye_data initState { x := none, y := some 3 } 5).x = 0 :=
  (c9_missing_coordinate_defaults initState { x := none, y := some 3 } 5).1 rfl

/-- C10: the toggle handler writes only the tracking flag: the stored
direction, the last-update stamp, and the instance flag are all
unchanged for every prior state. -/
theorem c10_toggle_frame (s : ServerState) :
    (toggle_eye_tracking s).state.currentDirection = s.currentDirection
    ∧ (toggle_eye_tracking s).state.lastEyeUpdate = s.lastEyeUpdate
    ∧ (toggle_eye_tracking s).state.pyboyRunning = s.pyboyRunning :=
  ⟨rfl, rfl, rfl⟩

/-- Witness for `c10_toggle_frame` at the initial state. -/
theorem c10_toggle_frame_witness :
    (toggle_eye_tracking initState).state.currentDirection = initState.currentDirection :=
  (c10_toggle_frame initState).1

end PokemonEyes
